import Mathlib

/-!
Shallow embedding of `create_test_files.py` (automation-scripts repository).

The script generates a fixed corpus of sample files under the user's
Desktop (or Polish "Pulpit") folder.  We model the filesystem effects of a
run as an explicit list of events (prints, one mkdir, file writes), the
contents written as an inductive `FileContent` (plain text, raw bytes,
a ZIP container with its entries, a rendered image description, or a
serialized JSON value), and the optional-dependency / font-fallback
branches as boolean parameters.  Write failures of the runtime are
modelled by an oracle assigning an error message to the file names whose
write raises.
-/

namespace CTF

/-- JSON values, for the structured-data file written via `json.dumps`. -/
inductive Json where
  | str (s : String)
  | arr (items : List Json)
  | obj (fields : List (String × Json))

/-- Drawing operations issued on a PIL `ImageDraw` object. -/
inductive DrawOp where
  | textOp (pos : Nat × Nat) (txt : String) (fill : String) (font : Option String)
  | rect (coords : List Nat) (outline : String) (width : Nat)
  | ellipse (coords : List Nat) (outline : String) (width : Nat)
deriving Repr, DecidableEq

/-- A rendered image: canvas parameters, draw calls in order, save format. -/
structure ImageSpec where
  width : Nat
  height : Nat
  color : String
  ops : List DrawOp
  format : String
deriving Repr, DecidableEq

/-- Content of a written file. -/
inductive FileContent where
  | text (s : String)
  | bytes (b : String)
  | zip (entries : List (String × String))
  | image (spec : ImageSpec)
  | jsonFile (v : Json)

/-- A directory entry: a regular file with content, or a subdirectory. -/
inductive Entry where
  | file (c : FileContent)
  | dir

/-- A directory as an association list from names to entries. -/
abbrev Folder := List (String × Entry)

/-- Observable effects of a run, in order. -/
inductive Event where
  | print (s : String)
  | mkdir
  | write (name : String) (c : FileContent)

/-- Python exceptions that the script can raise. -/
inductive PyError where
  | fileNotFoundError (m : String)
  | ioError (m : String)
deriving Repr, DecidableEq

/-- Model of `str(e)`: the message carried by the exception. -/
def PyError.msg : PyError → String
  | .fileNotFoundError m => m
  | .ioError m => m

/-- Write-failure oracle: `some m` means writing that file raises `IOError(m)`. -/
abbrev Oracle := String → Option String

/-- The oracle of a run in which every write succeeds. -/
def noFail : Oracle := fun _ => none

/-- One `write_text` / `write_bytes` / `save`-style write, checked by the oracle. -/
def pwrite (o : Oracle) (n : String) (c : FileContent) : Except PyError (List Event) :=
  match o n with
  | some m => .error (.ioError m)
  | none => .ok [.write n c]

/-- The print lines among a list of events, in order. -/
def printsOf (evs : List Event) : List String :=
  evs.filterMap fun e =>
    match e with
    | .print s => some s
    | _ => none

/-- The (name, content) pairs of the write events, in order. -/
def writesOf (evs : List Event) : List (String × FileContent) :=
  evs.filterMap fun e =>
    match e with
    | .write n c => some (n, c)
    | _ => none

/-- Overwrite-or-append a regular file into a folder. -/
def updateFile (f : Folder) (n : String) (c : FileContent) : Folder :=
  match f with
  | [] => [(n, .file c)]
  | (m, e) :: rest =>
      if m = n then (n, .file c) :: rest else (m, e) :: updateFile rest n c

/-- Apply the write events to a folder; prints and mkdir leave it unchanged. -/
def applyEvents (f : Folder) : List Event → Folder
  | [] => f
  | .write n c :: evs => applyEvents (updateFile f n c) evs
  | .print _ :: evs => applyEvents f evs
  | .mkdir :: evs => applyEvents f evs

/-- Look a name up in a folder. -/
def lookupEntry (f : Folder) (n : String) : Option Entry :=
  match f with
  | [] => none
  | (m, e) :: rest => if m = n then some e else lookupEntry rest n

/-- Content of `readme.txt` (source lines 66–79). -/
def readme_txt : String := "\nFile Organizer Test Document\n===========================\n\nThis is a test document for the File Organizer Pro.\nIt should be moved to the Documents folder.\n\nFeatures tested:\n- Text file organization\n- Document categorization\n- File moving operations\n\nAuthor: Darius04-ux\n"

/-- Content of `notes.txt` (source lines 82–95). -/
def notes_txt : String := "\nProject Notes\n=============\n\n1. File Organizer working perfectly\n2. GUI interface responsive\n3. Logging system operational\n4. Undo functionality tested\n\nNext steps:\n- Add more file types\n- Improve UI design\n- Add batch processing\n"

/-- Create text document files (source `create_text_files`). -/
def create_text_files (o : Oracle) : Except PyError (List Event) := do
  let e1 ← pwrite o "readme.txt" (.text readme_txt)
  let e2 ← pwrite o "notes.txt" (.text notes_txt)
  return e1 ++ e2 ++ [.print "📝 Created text files"]

/-- Model of `ImageFont.load_default()` wrapped in `try`: `none` is the
`IOError` branch where drawing proceeds with `font = None`. -/
def fontFor (fontOk : Bool) : Option String :=
  if fontOk then some "default" else none

/-- The 400×300 light-blue PNG canvas with three text draws and two shapes. -/
def sampleImageSpec (fontOk : Bool) : ImageSpec where
  width := 400
  height := 300
  color := "lightblue"
  ops := [
    .textOp (50, 100) "Test Image" "darkblue" (fontFor fontOk),
    .textOp (50, 130) "File Organizer Pro" "darkblue" (fontFor fontOk),
    .textOp (50, 160) "Sample PNG File" "darkblue" (fontFor fontOk),
    .rect [50, 200, 150, 250] "red" 3,
    .ellipse [200, 200, 300, 250] "green" 3]
  format := "PNG"

/-- The 300×200 light-green JPEG canvas with two text draws. -/
def testPhotoSpec (fontOk : Bool) : ImageSpec where
  width := 300
  height := 200
  color := "lightgreen"
  ops := [
    .textOp (50, 80) "JPEG Test File" "darkgreen" (fontFor fontOk),
    .textOp (50, 110) "For File Organizer" "darkgreen" (fontFor fontOk)]
  format := "JPEG"

/-- Create sample image files (source `create_image_files`), with the
placeholder fallback when Pillow is unavailable. -/
def create_image_files (pillow fontOk : Bool) (o : Oracle) : Except PyError (List Event) :=
  if pillow then do
    let e1 ← pwrite o "sample_image.png" (.image (sampleImageSpec fontOk))
    let e2 ← pwrite o "test_photo.jpg" (.image (testPhotoSpec fontOk))
    return e1 ++ e2 ++ [.print "🖼️  Created image files"]
  else do
    let e1 ← pwrite o "sample_image.png" (.bytes "PNG placeholder")
    let e2 ← pwrite o "test_photo.jpg" (.bytes "JPEG placeholder")
    return [.print "⚠️  Pillow (PIL) not available, creating placeholder image files."] ++ e1 ++ e2

/-- Content of `test_document.pdf` (source lines 140–151). -/
def pdf_content : String := "\n%PDF-1.4 (This is a fake PDF for testing)\nFile Organizer Pro - Test Document\n==================================\n\nThis file simulates a PDF document.\nIn real usage, this would be a proper PDF file.\n\nThe File Organizer should move this to Documents folder.\n\nTest completed successfully!\n"

/-- Content of `report.rtf` (source lines 155–166). -/
def rtf_content : String := "\x7b\\rtf1\\ansi\\deff0 \x7b\\fonttbl \x7b\\f0 Times New Roman;\x7d\x7d\n\\f0\\fs24 File Organizer Test RTF Document\\par\n\\par\nThis is a Rich Text Format document for testing.\\par\n\\par\nFeatures:\\par\n- RTF formatting\\par\n- Document organization\\par\n- File type detection\\par\n\\par\nAuthor: Darius04-ux\\par\n\x7d"

/-- Create document-like files (source `create_document_files`). -/
def create_document_files (o : Oracle) : Except PyError (List Event) := do
  let e1 ← pwrite o "test_document.pdf" (.text pdf_content)
  let e2 ← pwrite o "report.rtf" (.text rtf_content)
  return e1 ++ e2 ++ [.print "📄 Created document files"]

/-- The three entries written into `test_archive.zip`, in insertion order. -/
def zipEntries : List (String × String) := [
  ("readme.txt", "This is content inside the ZIP file"),
  ("data.json", "\x7b\"test\": \"data\", \"file\": \"organizer\"\x7d"),
  ("folder/nested_file.txt", "Nested file content")]

/-- Create archive files (source `create_archive_files`). -/
def create_archive_files (o : Oracle) : Except PyError (List Event) := do
  let e1 ← pwrite o "test_archive.zip" (.zip zipEntries)
  let e2 ← pwrite o "backup.rar" (.bytes "RAR archive placeholder for testing")
  return e1 ++ e2 ++ [.print "📦 Created archive files"]

/-- Content of `sample_script.py` (source lines 191–202). -/
def python_code : String := "\x23!/usr/bin/env python3\n\"\"\"\nSample Python script for File Organizer testing\n\"\"\"\n\ndef hello_world():\n    print(\"Hello from File Organizer test!\")\n    print(\"This Python file should go to Code folder\")\n\nif __name__ == \"__main__\":\n    hello_world()\n"

/-- Content of `app.js` (source lines 206–215). -/
def js_code : String := "// Sample JavaScript file for testing\nconsole.log(\"File Organizer Pro - JavaScript Test\");\n\nfunction organizeFiles() \x7b\n    console.log(\"This JS file should go to Code folder\");\n    return \"File organization complete!\";\n\x7d\n\norganizeFiles();\n"

/-- Content of `index.html` (source lines 219–230). -/
def html_code : String := "<!DOCTYPE html>\n<html>\n<head>\n    <title>File Organizer Test</title>\n</head>\n<body>\n    <h1>File Organizer Pro</h1>\n    <p>This HTML file should be moved to Code folder</p>\n    <p>Testing file organization...</p>\n</body>\n</html>\n"

/-- Create code files (source `create_code_files`). -/
def create_code_files (o : Oracle) : Except PyError (List Event) := do
  let e1 ← pwrite o "sample_script.py" (.text python_code)
  let e2 ← pwrite o "app.js" (.text js_code)
  let e3 ← pwrite o "index.html" (.text html_code)
  return e1 ++ e2 ++ e3 ++ [.print "💻 Created code files"]

/-- The Python dict serialized into `config.json` (source lines 239–254). -/
def configJson : Json :=
  .obj [
    ("app_name", .str "File Organizer Pro"),
    ("version", .str "1.0"),
    ("author", .str "Darius04-ux"),
    ("test_files", .arr [.str "readme.txt", .str "sample_image.png", .str "test_document.pdf"]),
    ("features", .arr [.str "File organization", .str "GUI interface", .str "Undo functionality", .str "Logging system"])]

/-- Content of `data.xml` (source lines 258–269). -/
def xml_content : String := "<?xml version=\"1.0\" encoding=\"UTF-8\"?>\n<fileorganizer>\n    <name>File Organizer Pro</name>\n    <author>Darius04-ux</author>\n    <description>Test XML file for file organization</description>\n    <files>\n        <file type=\"image\">sample_image.png</file>\n        <file type=\"document\">test_document.pdf</file>\n        <file type=\"archive\">test_archive.zip</file>\n    </files>\n</fileorganizer>\n"

/-- Content of `organizer.log` (source lines 273–281). -/
def log_content : String := "2025-01-01 10:00:00 - INFO - File Organizer started\n2025-01-01 10:00:01 - INFO - Scanning folder for files\n2025-01-01 10:00:02 - INFO - Found 15 files to organize\n2025-01-01 10:00:03 - INFO - Created Images folder\n2025-01-01 10:00:04 - INFO - Moved sample_image.png to Images/\n2025-01-01 10:00:05 - INFO - Created Documents folder\n2025-01-01 10:00:06 - INFO - Moved test_document.pdf to Documents/\n2025-01-01 10:00:07 - INFO - Organization completed successfully\n"

/-- Create other miscellaneous files (source `create_other_files`). -/
def create_other_files (o : Oracle) : Except PyError (List Event) := do
  let e1 ← pwrite o "config.json" (.jsonFile configJson)
  let e2 ← pwrite o "data.xml" (.text xml_content)
  let e3 ← pwrite o "organizer.log" (.text log_content)
  return e1 ++ e2 ++ e3 ++ [.print "📋 Created other files"]

/-- The six builders in the order the orchestrator invokes them
(source lines 34–50). -/
def buildersSeq (pillow fontOk : Bool) (o : Oracle) : List (Except PyError (List Event)) := [
  create_text_files o,
  create_image_files pillow fontOk o,
  create_document_files o,
  create_archive_files o,
  create_code_files o,
  create_other_files o]

/-- Run builder results in sequence: the first raised exception aborts the
rest; events of the builders already completed are kept. -/
def runSeq : List (Except PyError (List Event)) → Option PyError × List Event
  | [] => (none, [])
  | r :: rest =>
    match r with
    | .error e => (some e, [])
    | .ok evs =>
      match runSeq rest with
      | (some e, evs2) => (some e, evs ++ evs2)
      | (none, evs2) => (none, evs ++ evs2)

/-- Model of `test_folder.glob("*")`: every direct entry of the folder,
files and directories alike — pathlib's glob matches dot-hidden names
too, unlike the `glob` module. -/
def globEntries (f : Folder) : Folder := f

/-- Lexicographic strict order on character lists, by code point — the
order Python uses to compare strings. -/
def charListLt (xs ys : List Char) : Bool :=
  match xs, ys with
  | _, [] => false
  | [], _ => true
  | x :: xr, y :: yr => if x < y then true else if y < x then false else charListLt xr yr

/-- Non-strict string order derived from `charListLt`. -/
def strLe (a b : String) : Bool := !(charListLt b.data a.data)

/-- Insert an entry into a name-sorted folder listing. -/
def insertByName (p : String × Entry) : Folder → Folder
  | [] => [p]
  | q :: rest => if strLe p.1 q.1 then p :: q :: rest else q :: insertByName p rest

/-- Model of `sorted(files)`: entries sorted by name. -/
def sortByName : Folder → Folder
  | [] => []
  | p :: rest => insertByName p (sortByName rest)

/-- The line printed for an entry of the sorted listing: regular files
get a bullet line, directories are skipped (`file.is_file()`). -/
def fileLine (p : String × Entry) : Option String :=
  match p.2 with
  | .file _ => some ("   • " ++ p.1)
  | .dir => none

/-- The final listing block (source lines 56–60): one header line whose
count is the number of glob results — every direct entry, files and
directories alike — then one line per regular file, in sorted name
order. -/
def listingPrints (f : Folder) : List String :=
  let files := globEntries f
  ("\n📋 Created " ++ toString files.length ++ " files:") ::
    (sortByName files).filterMap fileLine

/-- The invoking user's home directory: its path and which child names
exist under it. -/
structure HomeDir where
  path : String
  has : String → Bool

/-- Desktop resolution (source lines 22–28): `Desktop` first, then
`Pulpit`, else no desktop-equivalent folder. -/
def resolveDesktop (h : HomeDir) : Option String :=
  if h.has "Desktop" then some "Desktop"
  else if h.has "Pulpit" then some "Pulpit"
  else none

/-- The message of the `FileNotFoundError` raised when resolution fails. -/
def noDesktopMsg : String :=
  "Nie znaleziono folderu Desktop ani Pulpit w katalogu domowym użytkownika."

/-- The path of the fixture subfolder under the resolved desktop. -/
def testFolderPath (h : HomeDir) (desk : String) : String :=
  h.path ++ "/" ++ desk ++ "/test_files"

/-- The orchestrator `create_test_files` (source lines 19–60).
`s` is the prior state of the fixture subfolder (`none` when it does not
exist yet; `mkdir(exist_ok=True)` turns that into an empty folder).
Returns the exception that escaped, if any, and the events of the run. -/
def create_test_files (h : HomeDir) (pillow fontOk : Bool) (o : Oracle) (s : Option Folder) :
    Option PyError × List Event :=
  match resolveDesktop h with
  | none => (some (.fileNotFoundError noDesktopMsg), [])
  | some desk =>
    let tf := testFolderPath h desk
    let evs0 : List Event := [.mkdir, .print ("📁 Creating test files in: " ++ tf)]
    match runSeq (buildersSeq pillow fontOk o) with
    | (some e, evs) => (some e, evs0 ++ evs)
    | (none, evs) =>
      let folder := applyEvents (s.getD []) (evs0 ++ evs)
      (none, evs0 ++ evs ++
        [.print "✅ Test files created successfully!", .print ("📂 Location: " ++ tf)] ++
        (listingPrints folder).map .print)

/-- The two banner lines printed before the `try` block; the second
models the Python expression of 50 repeated equality signs. -/
def headerPrints : List String :=
  ["🚀 File Organizer Pro - Test Files Creator",
   String.mk (List.replicate 50 (Char.ofNat 61))]

/-- The success epilogue printed after `create_test_files` returns. -/
def successPrints : List String :=
  ["\n✅ All test files created successfully!",
   "🎯 Now you can test the File Organizer with these files!"]

/-- The error line and remediation hint printed by the `except` clause. -/
def errorPrints (e : PyError) : List String :=
  ["❌ Error creating test files: " ++ e.msg,
   "💡 Try running as administrator if you get permission errors"]

/-- The `__main__` block (source lines 286–297): run the generator under a
catch-all handler; return everything printed and the process exit code. -/
def pyMain (h : HomeDir) (pillow fontOk : Bool) (o : Oracle) (s : Option Folder) :
    List String × Nat :=
  match create_test_files h pillow fontOk o s with
  | (none, evs) => (headerPrints ++ printsOf evs ++ successPrints, 0)
  | (some e, evs) => (headerPrints ++ printsOf evs ++ errorPrints e, 0)

/-- Opening a file with `zipfile.ZipFile(path)`: succeeds with the entry
list exactly when the content is a structurally valid ZIP container. -/
def readZip : FileContent → Except String (List (String × String))
  | .zip entries => .ok entries
  | _ => .error "BadZipFile: File is not a zip file"

/-- The events of a builder result, empty when it raised. -/
def eventsOf : Except PyError (List Event) → List Event
  | .ok evs => evs
  | .error _ => []

/-- The names of the regular files of a folder, in entry order. -/
def fileNames (f : Folder) : List String :=
  f.filterMap fun p =>
    match p.2 with
    | .file _ => some p.1
    | .dir => none

/-- The final folder of a run started on prior state `s`. -/
def runFolder (s : Option Folder) (r : Option PyError × List Event) : Folder :=
  applyEvents (s.getD []) r.2

/-- A home directory whose only recognized child is `Desktop`. -/
def desktopHome : HomeDir := ⟨"/home/user", fun n => n == "Desktop"⟩

/-- Whether an entry is a subdirectory. -/
def Entry.isDir : Entry → Bool
  | .dir => true
  | .file _ => false

/-- Whether a list of events ends with a print line. -/
def endsWithPrint (evs : List Event) : Bool :=
  match evs.getLast? with
  | some (.print _) => true
  | _ => false

/-- The fonts passed to the text draw calls of an image, in order. -/
def fontsUsed (spec : ImageSpec) : List (Option String) :=
  spec.ops.filterMap fun op =>
    match op with
    | .textOp _ _ _ fnt => some fnt
    | _ => none

/-- The keys of a decoded JSON object, in order. -/
def Json.keysOf : Json → List String
  | .obj fields => fields.map Prod.fst
  | _ => []

/-- Look a key up in a field list. -/
def lookupField (fields : List (String × Json)) (k : String) : Option Json :=
  match fields with
  | [] => none
  | (m, v) :: rest => if m = k then some v else lookupField rest k

/-- Look a key up in a decoded JSON object. -/
def Json.getField : Json → String → Option Json
  | .obj fields, k => lookupField fields k
  | _, _ => none

/-- Applying a list of events twice leaves the folder where applying it
once does. -/
def idemOn (f : Folder) (evs : List Event) : Prop :=
  applyEvents (applyEvents f evs) evs = applyEvents f evs

/-- A fixture folder seeded with a pre-existing subdirectory. -/
def seededFolder : Folder := [("old_backups", .dir)]

/-- A small folder holding only regular files. -/
def listedSample : Folder := [("notes.txt", .file (.text "x")), ("app.js", .file (.bytes "y"))]

/-- A home directory under which neither `Desktop` nor `Pulpit` exists. -/
def bareHome : HomeDir := ⟨"/home/user", fun _ => false⟩

/-- A home directory whose only recognized child is `Pulpit`. -/
def pulpitHome : HomeDir := ⟨"/home/user", fun n => n == "Pulpit"⟩

theorem lookup_updateFile_self (f : Folder) (n : String) (c : FileContent) :
    lookupEntry (updateFile f n c) n = some (.file c) := by
  induction f with
  | nil => simp [updateFile, lookupEntry]
  | cons p rest ih =>
    obtain ⟨m, e⟩ := p
    by_cases hm : m = n
    · subst hm
      simp [updateFile, lookupEntry]
    · simp [updateFile, lookupEntry, hm, ih]

theorem lookup_updateFile_ne (f : Folder) (n q : String) (c : FileContent) (h : q ≠ n) :
    lookupEntry (updateFile f n c) q = lookupEntry f q := by
  induction f with
  | nil => simp [updateFile, lookupEntry, Ne.symm h]
  | cons p rest ih =>
    obtain ⟨m, e⟩ := p
    by_cases hm : m = n
    · subst hm
      simp only [updateFile, if_pos rfl, lookupEntry]
      rw [if_neg (Ne.symm h), if_neg (Ne.symm h)]
    · simp only [updateFile, if_neg hm, lookupEntry]
      by_cases hq : m = q
      · simp [hq]
      · simp [hq, ih]

theorem updateFile_lookup_eq (f : Folder) (n : String) (c : FileContent)
    (h : lookupEntry f n = some (.file c)) : updateFile f n c = f := by
  induction f with
  | nil => simp [lookupEntry] at h
  | cons p rest ih =>
    obtain ⟨m, e⟩ := p
    by_cases hm : m = n
    · subst hm
      have he : e = Entry.file c := by simpa [lookupEntry] using h
      simp [updateFile, he]
    · simp only [lookupEntry, if_neg hm] at h
      simp [updateFile, hm, ih h]

theorem writesOf_print (s : String) (evs : List Event) :
    writesOf (.print s :: evs) = writesOf evs := rfl

theorem writesOf_mkdir (evs : List Event) :
    writesOf (.mkdir :: evs) = writesOf evs := rfl

theorem writesOf_write (n : String) (c : FileContent) (evs : List Event) :
    writesOf (.write n c :: evs) = (n, c) :: writesOf evs := rfl

theorem lookup_applyEvents_not_written (evs : List Event) (f : Folder) (n : String)
    (h : n ∉ (writesOf evs).map Prod.fst) :
    lookupEntry (applyEvents f evs) n = lookupEntry f n := by
  induction evs generalizing f with
  | nil => rfl
  | cons ev rest ih =>
    cases ev with
    | print s => exact ih f (by simpa [writesOf_print] using h)
    | mkdir => exact ih f (by simpa [writesOf_mkdir] using h)
    | write m c =>
      rw [writesOf_write] at h
      simp only [List.map_cons, List.mem_cons, not_or] at h
      rw [show applyEvents f (.write m c :: rest) = applyEvents (updateFile f m c) rest from rfl]
      rw [ih (updateFile f m c) h.2]
      exact lookup_updateFile_ne f m n c h.1

theorem lookup_applyEvents_mem (evs : List Event) (f : Folder) (n : String) (c : FileContent)
    (hnd : ((writesOf evs).map Prod.fst).Nodup) (hmem : (n, c) ∈ writesOf evs) :
    lookupEntry (applyEvents f evs) n = some (.file c) := by
  induction evs generalizing f with
  | nil => simp [writesOf] at hmem
  | cons ev rest ih =>
    cases ev with
    | print s => exact ih f (by simpa [writesOf_print] using hnd) (by simpa [writesOf_print] using hmem)
    | mkdir => exact ih f (by simpa [writesOf_mkdir] using hnd) (by simpa [writesOf_mkdir] using hmem)
    | write m d =>
      rw [writesOf_write] at hmem
      rw [writesOf_write, List.map_cons, List.nodup_cons] at hnd
      rw [show applyEvents f (.write m d :: rest) = applyEvents (updateFile f m d) rest from rfl]
      rcases List.mem_cons.mp hmem with heq | hmem2
      · injection heq with h1 h2
        subst h1
        subst h2
        rw [lookup_applyEvents_not_written rest (updateFile f n c) n hnd.1]
        exact lookup_updateFile_self f n c
      · exact ih (updateFile f m d) hnd.2 hmem2

theorem applyEvents_fixed (evs : List Event) (g : Folder)
    (h : ∀ n c, (n, c) ∈ writesOf evs → lookupEntry g n = some (.file c)) :
    applyEvents g evs = g := by
  induction evs with
  | nil => rfl
  | cons ev rest ih =>
    cases ev with
    | print s => exact ih fun n c hm => h n c (by simpa [writesOf_print] using hm)
    | mkdir => exact ih fun n c hm => h n c (by simpa [writesOf_mkdir] using hm)
    | write m d =>
      rw [show applyEvents g (.write m d :: rest) = applyEvents (updateFile g m d) rest from rfl]
      rw [updateFile_lookup_eq g m d (h m d (by rw [writesOf_write]; exact List.mem_cons_self _ _))]
      exact ih fun n c hm => h n c (by rw [writesOf_write]; exact List.mem_cons_of_mem _ hm)

theorem applyEvents_idem (evs : List Event) (f : Folder)
    (hnd : ((writesOf evs).map Prod.fst).Nodup) :
    idemOn f evs :=
  applyEvents_fixed evs _ fun n c hm => lookup_applyEvents_mem evs f n c hnd hm

theorem length_insertByName (p : String × Entry) (l : Folder) :
    (insertByName p l).length = l.length + 1 := by
  induction l with
  | nil => rfl
  | cons q rest ih =>
    simp only [insertByName]
    split
    · simp
    · simp [ih]

theorem length_sortByName (l : Folder) : (sortByName l).length = l.length := by
  induction l with
  | nil => rfl
  | cons p rest ih => simp [sortByName, length_insertByName, ih]

theorem mem_insertByName {q p : String × Entry} {l : Folder} :
    q ∈ insertByName p l ↔ q = p ∨ q ∈ l := by
  induction l with
  | nil => simp [insertByName]
  | cons r rest ih =>
    simp only [insertByName]
    split
    · simp [List.mem_cons]
    · simp only [List.mem_cons, ih]
      tauto

theorem mem_sortByName {q : String × Entry} {l : Folder} : q ∈ sortByName l ↔ q ∈ l := by
  induction l with
  | nil => simp [sortByName]
  | cons p rest ih => simp [sortByName, mem_insertByName, ih, List.mem_cons]

theorem length_filterMap_fileLine (l : Folder) (h : ∀ p ∈ l, p.2.isDir = false) :
    (l.filterMap fileLine).length = l.length := by
  induction l with
  | nil => rfl
  | cons p rest ih =>
    have hp : p.2.isDir = false := h p (List.mem_cons_self _ _)
    have hline : fileLine p = some ("   • " ++ p.1) := by
      cases hp2 : p.2 with
      | file c => simp [fileLine, hp2]
      | dir => rw [hp2] at hp; simp [Entry.isDir] at hp
    simp [List.filterMap_cons, hline, ih fun q hq => h q (List.mem_cons_of_mem _ hq)]

set_option maxHeartbeats 1000000 in
/-- C1 counterexample: a run on a fresh fixture folder (Desktop present,
all writes succeed, imaging available) ends with 14 regular files, not the
16 the claim states. -/
theorem c1_counterexample :
    (fileNames (runFolder none (create_test_files desktopHome true true noFail none))).length = 14 ∧
    (fileNames (runFolder none (create_test_files desktopHome true true noFail none))).length ≠ 16 :=
  ⟨by decide, by decide⟩

set_option maxHeartbeats 2000000 in
/-- C1 (amended): for every availability of the imaging library and of the
default font, a run on a fresh fixture folder raises nothing and creates
exactly 14 regular files with the fixed name set (two text, two image,
two document, one ZIP, one RAR placeholder, three code/markup, one JSON,
one XML, one log). -/
theorem c1_amended_file_count (pillow fontOk : Bool) :
    (create_test_files desktopHome pillow fontOk noFail none).1 = none ∧
    fileNames (sortByName (runFolder none (create_test_files desktopHome pillow fontOk noFail none))) =
      ["app.js", "backup.rar", "config.json", "data.xml", "index.html", "notes.txt",
       "organizer.log", "readme.txt", "report.rtf", "sample_image.png", "sample_script.py",
       "test_archive.zip", "test_document.pdf", "test_photo.jpg"] ∧
    (runFolder none (create_test_files desktopHome pillow fontOk noFail none)).length = 14 := by
  cases pillow <;> cases fontOk <;> exact ⟨rfl, by decide, by decide⟩

/-- C2: when neither `Desktop` nor `Pulpit` exists under the home
directory, the run returns the `FileNotFoundError` with an empty event
list — the fixture subfolder is not created and no file is written; when
at least one exists, the first in the fixed order Desktop-then-Pulpit is
selected. -/
theorem c2_desktop_resolution (h : HomeDir) (pillow fontOk : Bool) (o : Oracle) (s : Option Folder) :
    (h.has "Desktop" = false → h.has "Pulpit" = false →
      create_test_files h pillow fontOk o s = (some (.fileNotFoundError noDesktopMsg), [])) ∧
    (h.has "Desktop" = true → resolveDesktop h = some "Desktop") ∧
    (h.has "Desktop" = false → h.has "Pulpit" = true → resolveDesktop h = some "Pulpit") := by
  refine ⟨fun hd hp => ?_, fun hd => ?_, fun hd hp => ?_⟩
  · simp [create_test_files, resolveDesktop, hd, hp]
  · simp [resolveDesktop, hd]
  · simp [resolveDesktop, hd, hp]

/-- C2 witness: concrete home directories exercising all three branches. -/
theorem c2_desktop_resolution_witness :
    create_test_files bareHome true true noFail none =
      (some (.fileNotFoundError noDesktopMsg), []) ∧
    resolveDesktop desktopHome = some "Desktop" ∧
    resolveDesktop pulpitHome = some "Pulpit" :=
  ⟨(c2_desktop_resolution bareHome true true noFail none).1 rfl rfl,
   (c2_desktop_resolution desktopHome true true noFail none).2.1 rfl,
   (c2_desktop_resolution pulpitHome true true noFail none).2.2 rfl rfl⟩

/-- C3: the archive builder writes the ZIP with exactly three entries in
insertion order — top-level `readme.txt` and `data.json` and nested
`folder/nested_file.txt` with their fixed contents — and opening the
container with a standard reader succeeds. -/
theorem c3_zip_archive :
    writesOf (eventsOf (create_archive_files noFail)) =
      [("test_archive.zip", .zip [
          ("readme.txt", "This is content inside the ZIP file"),
          ("data.json", "\x7b\"test\": \"data\", \"file\": \"organizer\"\x7d"),
          ("folder/nested_file.txt", "Nested file content")]),
       ("backup.rar", .bytes "RAR archive placeholder for testing")] ∧
    readZip (.zip zipEntries) = .ok zipEntries ∧
    zipEntries.length = 3 :=
  ⟨rfl, rfl, rfl⟩

set_option maxHeartbeats 1000000 in
/-- C4: with the imaging library unavailable, the image builder emits one
warning line and writes exactly the two placeholder files with the fixed
non-empty byte strings, raising nothing; the whole run still ends with the
success epilogue and a normal exit code. -/
theorem c4_pillow_fallback (fontOk : Bool) (s : Option Folder) :
    create_image_files false fontOk noFail = .ok
      [.print "⚠️  Pillow (PIL) not available, creating placeholder image files.",
       .write "sample_image.png" (.bytes "PNG placeholder"),
       .write "test_photo.jpg" (.bytes "JPEG placeholder")] ∧
    ("PNG placeholder" : String).length ≠ 0 ∧
    ("JPEG placeholder" : String).length ≠ 0 ∧
    lookupEntry (runFolder none (create_test_files desktopHome false fontOk noFail none))
      "sample_image.png" = some (.file (.bytes "PNG placeholder")) ∧
    lookupEntry (runFolder none (create_test_files desktopHome false fontOk noFail none))
      "test_photo.jpg" = some (.file (.bytes "JPEG placeholder")) ∧
    pyMain desktopHome false fontOk noFail s =
      (headerPrints ++ printsOf (create_test_files desktopHome false fontOk noFail s).2 ++ successPrints, 0) :=
  ⟨rfl, by decide, by decide, rfl, rfl, rfl⟩

/-- C5: whatever exception escapes the generator — resolution failure or a
builder write failure injected by the oracle — the `__main__` handler
prints the error line carrying the exception text plus the remediation
hint, does not re-raise, and the process exit code is 0 in every run. -/
theorem c5_catch_all (h : HomeDir) (pillow fontOk : Bool) (o : Oracle) (s : Option Folder) :
    (∀ e evs, create_test_files h pillow fontOk o s = (some e, evs) →
      pyMain h pillow fontOk o s = (headerPrints ++ printsOf evs ++ errorPrints e, 0)) ∧
    (∀ e, (errorPrints e).head? = some ("❌ Error creating test files: " ++ e.msg)) ∧
    (pyMain h pillow fontOk o s).2 = 0 := by
  refine ⟨fun e evs heq => ?_, fun e => rfl, ?_⟩
  · simp [pyMain, heq]
  · rcases hx : create_test_files h pillow fontOk o s with ⟨err, evs⟩
    cases err <;> simp [pyMain, hx]

/-- C5 witness: the failed-resolution run prints the error and hint and
exits with code 0. -/
theorem c5_catch_all_witness :
    pyMain bareHome true true noFail none =
      (headerPrints ++ printsOf [] ++ errorPrints (.fileNotFoundError noDesktopMsg), 0) ∧
    (pyMain bareHome true true noFail none).2 = 0 :=
  ⟨(c5_catch_all bareHome true true noFail none).1 _ [] rfl,
   (c5_catch_all bareHome true true noFail none).2.2⟩

set_option maxHeartbeats 2000000 in
/-- C6 counterexample: on a run whose fixture folder already held a
subdirectory, the header counts 15 entries while only 14 regular-file
lines are printed, so the printed count does not equal the number of
regular files printed. -/
theorem c6_counterexample :
    (listingPrints (runFolder (some seededFolder)
        (create_test_files desktopHome true true noFail (some seededFolder)))).head? =
      some "\n📋 Created 15 files:" ∧
    ((listingPrints (runFolder (some seededFolder)
        (create_test_files desktopHome true true noFail (some seededFolder)))).tail).length = 14 ∧
    (globEntries (runFolder (some seededFolder)
        (create_test_files desktopHome true true noFail (some seededFolder)))).length ≠
      ((listingPrints (runFolder (some seededFolder)
        (create_test_files desktopHome true true noFail (some seededFolder)))).tail).length :=
  ⟨by decide, by decide, by decide⟩

/-- C6 (amended): the listing enumerates all entries directly inside the
target directory, prints a count equal to the number of those entries —
directories included — then one line per regular file in sorted name
order; the count equals the number of lines printed exactly when every
entry is a regular file. -/
theorem c6_amended_listing (f : Folder) :
    (listingPrints f).head? =
      some ("\n📋 Created " ++ toString (globEntries f).length ++ " files:") ∧
    (listingPrints f).tail = (sortByName (globEntries f)).filterMap fileLine ∧
    ((∀ p ∈ globEntries f, p.2.isDir = false) →
      ((listingPrints f).tail).length = (globEntries f).length) := by
  refine ⟨rfl, rfl, fun h => ?_⟩
  show ((sortByName (globEntries f)).filterMap fileLine).length = _
  rw [length_filterMap_fileLine _ fun p hp => h p (mem_sortByName.mp hp)]
  exact length_sortByName _

/-- C6 witness: on a folder of regular files only, the count equals the
number of file lines printed. -/
theorem c6_amended_listing_witness :
    ((listingPrints listedSample).tail).length = (globEntries listedSample).length :=
  (c6_amended_listing listedSample).2.2 (by decide)

set_option maxHeartbeats 1000000 in
/-- C7: `config.json` decodes to an object with exactly the keys
`app_name`, `version`, `author`, `test_files`, `features`, where
`test_files` is the fixed 3-element list and `features` the fixed
4-element list. -/
theorem c7_config_json :
    lookupEntry (runFolder none (create_test_files desktopHome true true noFail none))
      "config.json" = some (.file (.jsonFile configJson)) ∧
    Json.keysOf configJson = ["app_name", "version", "author", "test_files", "features"] ∧
    Json.getField configJson "app_name" = some (.str "File Organizer Pro") ∧
    Json.getField configJson "version" = some (.str "1.0") ∧
    Json.getField configJson "author" = some (.str "Darius04-ux") ∧
    Json.getField configJson "test_files" =
      some (.arr [.str "readme.txt", .str "sample_image.png", .str "test_document.pdf"]) ∧
    Json.getField configJson "features" =
      some (.arr [.str "File organization", .str "GUI interface",
                  .str "Undo functionality", .str "Logging system"]) :=
  ⟨rfl, rfl, rfl, rfl, rfl, rfl, rfl⟩

set_option maxHeartbeats 2000000 in
/-- C8: every builder, and the whole generation, is idempotent in effect
on any directory state: applying its writes twice leaves every target
file with the content of applying them once (same-named files are
overwritten, nothing accumulates, the ZIP is rewritten whole). -/
theorem c8_builders_idempotent (pillow fontOk : Bool) (f : Folder) :
    idemOn f (eventsOf (create_text_files noFail)) ∧
    idemOn f (eventsOf (create_image_files pillow fontOk noFail)) ∧
    idemOn f (eventsOf (create_document_files noFail)) ∧
    idemOn f (eventsOf (create_archive_files noFail)) ∧
    idemOn f (eventsOf (create_code_files noFail)) ∧
    idemOn f (eventsOf (create_other_files noFail)) ∧
    idemOn f (create_test_files desktopHome pillow fontOk noFail none).2 := by
  refine ⟨?_, ?_, ?_, ?_, ?_, ?_, ?_⟩ <;> apply applyEvents_idem
  · decide
  · cases pillow <;> cases fontOk <;> decide
  · decide
  · decide
  · decide
  · decide
  · cases pillow <;> cases fontOk <;> decide

/-- C9 counterexample: on the placeholder fallback path the image
builder's single printed line is the leading warning, and its event list
ends with a file write — no marker is printed after that builder
completes its work. -/
theorem c9_counterexample :
    endsWithPrint (eventsOf (create_image_files false true noFail)) = false ∧
    (eventsOf (create_image_files false true noFail)).getLast? =
      some (.write "test_photo.jpg" (.bytes "JPEG placeholder")) ∧
    (eventsOf (create_image_files false true noFail)).head? =
      some (.print "⚠️  Pillow (PIL) not available, creating placeholder image files.") :=
  ⟨rfl, rfl, rfl⟩

/-- C9 (amended): the orchestrator invokes the six builders in the fixed
order text, image, document, archive, code, misc, and each builder prints
exactly one line — six in total; on the primary path every builder's line
follows its writes, while on the fallback path the image builder's single
line is a warning printed before its writes. -/
theorem c9_amended_markers (pillow fontOk : Bool) :
    buildersSeq pillow fontOk noFail =
      [create_text_files noFail, create_image_files pillow fontOk noFail,
       create_document_files noFail, create_archive_files noFail,
       create_code_files noFail, create_other_files noFail] ∧
    (buildersSeq pillow fontOk noFail).map (fun r => (printsOf (eventsOf r)).length) =
      [1, 1, 1, 1, 1, 1] ∧
    (pillow = true → ∀ r ∈ buildersSeq pillow fontOk noFail,
      endsWithPrint (eventsOf r) = true) ∧
    (pillow = false →
      endsWithPrint (eventsOf (create_image_files pillow fontOk noFail)) = false ∧
      (eventsOf (create_image_files pillow fontOk noFail)).head? =
        some (.print "⚠️  Pillow (PIL) not available, creating placeholder image files.")) := by
  cases pillow <;> cases fontOk
  · exact ⟨rfl, rfl, fun hp => absurd hp (by decide), fun _ => ⟨rfl, rfl⟩⟩
  · exact ⟨rfl, rfl, fun hp => absurd hp (by decide), fun _ => ⟨rfl, rfl⟩⟩
  · exact ⟨rfl, rfl, fun _ => by decide, fun hp => absurd hp (by decide)⟩
  · exact ⟨rfl, rfl, fun _ => by decide, fun hp => absurd hp (by decide)⟩

/-- C9 witness: concrete runs on both paths — six one-line markers with
the library present, and the leading warning with it absent. -/
theorem c9_amended_markers_witness :
    (∀ r ∈ buildersSeq true true noFail, endsWithPrint (eventsOf r) = true) ∧
    endsWithPrint (eventsOf (create_image_files false true noFail)) = false ∧
    (buildersSeq false true noFail).map (fun r => (printsOf (eventsOf r)).length) =
      [1, 1, 1, 1, 1, 1] :=
  ⟨(c9_amended_markers true true).2.2.1 rfl,
   ((c9_amended_markers false true).2.2.2 rfl).1,
   (c9_amended_markers false true).2.1⟩

/-- C10: with the imaging library present but loading the default font
failing, the image builder does not raise: it draws every text with no
font object and still writes both files with their fixed names and
formats. -/
theorem c10_font_fallback :
    create_image_files true false noFail = .ok
      [.write "sample_image.png" (.image (sampleImageSpec false)),
       .write "test_photo.jpg" (.image (testPhotoSpec false)),
       .print "🖼️  Created image files"] ∧
    fontFor false = none ∧
    fontsUsed (sampleImageSpec false) = [none, none, none] ∧
    fontsUsed (testPhotoSpec false) = [none, none] ∧
    (sampleImageSpec false).format = "PNG" ∧
    (testPhotoSpec false).format = "JPEG" :=
  ⟨rfl, rfl, rfl, rfl, rfl, rfl⟩

end CTF
